import Mathlib

/-
Verification of the `mortgages` package (SeanBrunson/mortgages).

Shallow embedding over exact rationals (ℚ) of:
  * src/mortgages/mortgages.py : `calc_pmt`, `Mortgage.update_loan` /
    `create_amortization_schedule`, `calc_market_value`
  * src/mortgages/mbs.py : `calc_smm`, `Mbs.__init__` / `Mbs.pool_mortgage`
  * src/mortgages/rootfinding.py : `brent`, `OptimalRoots`

Pandas/NumPy modelling conventions used throughout:
  * A DataFrame column is a function `ℕ → Option ℚ` over row indices
    0..n; `none` models a missing value (NaN).  `Series.shift(1)` /
    `shift(-1)` become index shifts introducing `none` at the boundary,
    `fillna(0)` becomes `Option.getD 0`, and elementwise arithmetic
    propagates `none` exactly as float arithmetic propagates NaN.
  * `np.cumprod` applied to a pandas Series dispatches (via numpy's
    `_wrapfunc`) to `Series.cumprod`, whose default `skipna=True`
    keeps NaN cells NaN but skips them in the running product; this is
    modelled by `cumprodSkipna` below.
  * Python float division by zero raises `ZeroDivisionError`; checked
    division `divE` models this with an `Except` error.  NumPy *array*
    division by zero does not raise (it yields ±inf with a warning),
    so `calc_smm` is modelled as a total function.
-/

/-- Python exception kinds relevant to this package.  `domainError` is the
spec's abstract "DomainError" kind; the source never raises it, which is
the content of several claims below. -/
inductive PyErr where
  | zeroDivisionError
  | valueError
  | attributeError
  | domainError
deriving DecidableEq

/-- Checked division: Python float `x / y`, raising `ZeroDivisionError`
when `y == 0`. -/
def divE (x y : ℚ) : Except PyErr ℚ :=
  if y = 0 then .error .zeroDivisionError else .ok (x / y)

/-- NaN-propagating addition on DataFrame cells. -/
def nadd (x y : Option ℚ) : Option ℚ :=
  match x, y with
  | some a, some b => some (a + b)
  | _, _ => none

/-- NaN-propagating subtraction on DataFrame cells. -/
def nsub (x y : Option ℚ) : Option ℚ :=
  match x, y with
  | some a, some b => some (a - b)
  | _, _ => none

/-- NaN-propagating multiplication on DataFrame cells. -/
def nmul (x y : Option ℚ) : Option ℚ :=
  match x, y with
  | some a, some b => some (a * b)
  | _, _ => none

/-- Model of `Series.shift(1)`: row `i` receives the value of row `i-1`; row 0
becomes missing. -/
def shift1 (col : ℕ → Option ℚ) (i : ℕ) : Option ℚ :=
  if i = 0 then none else col (i - 1)

/-- Model of `Series.shift(-1)` on a table whose last row index is `n`: row `i`
receives the value of row `i+1`; row `n` becomes missing. -/
def shiftm1 (n : ℕ) (col : ℕ → Option ℚ) (i : ℕ) : Option ℚ :=
  if i = n then none else col (i + 1)

/-- Model of `fillna(0)` on a single cell. -/
def fillna0 (x : Option ℚ) : ℚ :=
  x.getD 0

/-- Running product of the non-missing cells of `col` among rows 0..i
(missing cells contribute 1, i.e. are skipped). -/
def runProd (col : ℕ → Option ℚ) : ℕ → ℚ
  | 0 => (col 0).getD 1
  | i + 1 => runProd col i * ((col (i + 1)).getD 1)

/-- pandas `Series.cumprod` with its default `skipna=True` (the method
`np.cumprod` dispatches to on a Series): a missing cell stays missing,
a present cell receives the product of all present cells up to it. -/
def cumprodSkipna (col : ℕ → Option ℚ) (i : ℕ) : Option ℚ :=
  match col i with
  | none => none
  | some _ => some (runProd col i)

/-! ## `Mbs.pool_mortgage` (src/mortgages/mbs.py lines 107-159)

The amortization-schedule columns `balance`, `payment`, `interest` are
arbitrary (any schedule the class is fed), the SMM curve is `smm`
(already broadcast to full length by `check_smm`), and `pf` is the
initial pool factor.  Each definition below is one column assignment of
`pool_mortgage`, in source order. -/

/-- Column `smm`: the curve with row 0 forced to 0
(`pooled["smm"][0] = 0.0`, lines 119-120). -/
def smm_col (smm : ℕ → ℚ) (i : ℕ) : Option ℚ :=
  some (if i = 0 then 0 else smm i)

/-- Column `pool_factor_shift` (line 125-126):
`pooled.pool_factor.shift(1)*(1.0-pooled.smm)`, where `pool_factor` is
at this point the constant column holding the initial pool factor
(line 121). -/
def pool_factor_shift1 (pf : ℚ) (smm : ℕ → ℚ) (i : ℕ) : Option ℚ :=
  nmul (shift1 (fun _ => some pf) i) (nsub (some 1) (smm_col smm i))

/-- Column `pool_factor` after lines 127-128:
`np.cumprod(pooled.pool_factor_shift)` (pandas skip-NaN cumprod) with
row 0 then overwritten to the initial pool factor. -/
def pool_factor (pf : ℚ) (smm : ℕ → ℚ) (i : ℕ) : Option ℚ :=
  if i = 0 then some pf else cumprodSkipna (pool_factor_shift1 pf smm) i

/-- Column `pool_balance` (line 134): `pooled.balance * pooled.pool_factor`. -/
def pool_balance (balance : ℕ → ℚ) (pf : ℚ) (smm : ℕ → ℚ) (i : ℕ) : Option ℚ :=
  nmul (some (balance i)) (pool_factor pf smm i)

/-- Column `pool_pmt` (line 135): `pooled.payment * pooled.pool_factor_shift`,
where `pool_factor_shift` has been recomputed (line 133) as the shift of
the updated `pool_factor` column. -/
def pool_pmt (payment : ℕ → ℚ) (pf : ℚ) (smm : ℕ → ℚ) (i : ℕ) : Option ℚ :=
  nmul (some (payment i)) (shift1 (pool_factor pf smm) i)

/-- Column `pool_interest` (lines 136-137):
`pooled.interest * pooled.pool_factor_shift`. -/
def pool_interest (interest : ℕ → ℚ) (pf : ℚ) (smm : ℕ → ℚ) (i : ℕ) : Option ℚ :=
  nmul (some (interest i)) (shift1 (pool_factor pf smm) i)

/-- Column `pool_principal` (lines 138-139): `pooled.pool_pmt - pooled.pool_interest`. -/
def pool_principal (payment interest : ℕ → ℚ) (pf : ℚ) (smm : ℕ → ℚ) (i : ℕ) : Option ℚ :=
  nsub (pool_pmt payment pf smm i) (pool_interest interest pf smm i)

/-- The un-shifted prepayment expression of lines 140-143:
`(pooled.pool_balance - pooled.pool_principal.shift(-1)) * pooled.smm.shift(-1)`. -/
def prepay_inner (balance payment interest smm : ℕ → ℚ) (pf : ℚ) (n i : ℕ) : Option ℚ :=
  nmul
    (nsub (pool_balance balance pf smm i)
      (shiftm1 n (pool_principal payment interest pf smm) i))
    (shiftm1 n (smm_col smm) i)

/-- Column `prepay_dollars` (lines 140-144): the previous expression
shifted down one row (`.shift(1)`). -/
def prepay_dollars (balance payment interest smm : ℕ → ℚ) (pf : ℚ) (n i : ℕ) : Option ℚ :=
  shift1 (prepay_inner balance payment interest smm pf n) i

/-- Column `total_principal` (lines 145-146): `pool_principal + prepay_dollars`. -/
def total_principal (balance payment interest smm : ℕ → ℚ) (pf : ℚ) (n i : ℕ) : Option ℚ :=
  nadd (pool_principal payment interest pf smm i)
    (prepay_dollars balance payment interest smm pf n i)

/-- Column `total_cashflow` (lines 147-148): `pool_interest + total_principal`. -/
def total_cashflow (balance payment interest smm : ℕ → ℚ) (pf : ℚ) (n i : ℕ) : Option ℚ :=
  nadd (pool_interest interest pf smm i)
    (total_principal balance payment interest smm pf n i)

/-! The table returned by `pool_mortgage` is the above after
`pooled.fillna(0)` (line 151); `_f` marks the final (filled) columns. -/

/-- Final `smm` column. -/
def smm_f (smm : ℕ → ℚ) (i : ℕ) : ℚ :=
  fillna0 (smm_col smm i)

/-- Final `pool_factor` column. -/
def pool_factor_f (pf : ℚ) (smm : ℕ → ℚ) (i : ℕ) : ℚ :=
  fillna0 (pool_factor pf smm i)

/-- Final `pool_balance` column. -/
def pool_balance_f (balance : ℕ → ℚ) (pf : ℚ) (smm : ℕ → ℚ) (i : ℕ) : ℚ :=
  fillna0 (pool_balance balance pf smm i)

/-- Final `pool_interest` column. -/
def pool_interest_f (interest : ℕ → ℚ) (pf : ℚ) (smm : ℕ → ℚ) (i : ℕ) : ℚ :=
  fillna0 (pool_interest interest pf smm i)

/-- Final `pool_principal` column. -/
def pool_principal_f (payment interest : ℕ → ℚ) (pf : ℚ) (smm : ℕ → ℚ) (i : ℕ) : ℚ :=
  fillna0 (pool_principal payment interest pf smm i)

/-- Final `prepay_dollars` column. -/
def prepay_dollars_f (balance payment interest smm : ℕ → ℚ) (pf : ℚ) (n i : ℕ) : ℚ :=
  fillna0 (prepay_dollars balance payment interest smm pf n i)

/-- Final `total_principal` column. -/
def total_principal_f (balance payment interest smm : ℕ → ℚ) (pf : ℚ) (n i : ℕ) : ℚ :=
  fillna0 (total_principal balance payment interest smm pf n i)

/-- Final `total_cashflow` column. -/
def total_cashflow_f (balance payment interest smm : ℕ → ℚ) (pf : ℚ) (n i : ℕ) : ℚ :=
  fillna0 (total_cashflow balance payment interest smm pf n i)

/-- Every cell of the (updated) `pool_factor` column is present: row 0 is the
initial pool factor and a later row is the skip-NaN running product of the
present cells of `pool_factor_shift`. -/
theorem pool_factor_eq_some (pf : ℚ) (smm : ℕ → ℚ) (i : ℕ) :
    pool_factor pf smm i = some (pool_factor_f pf smm i) := by
  cases i with
  | zero => simp [pool_factor, pool_factor_f, fillna0]
  | succ j =>
      simp [pool_factor, pool_factor_f, fillna0, cumprodSkipna, pool_factor_shift1,
        nmul, nsub, shift1, smm_col]

/-- C1.  For every amortization schedule, matching-length SMM curve and initial
pool factor, the pooled table satisfies `prepay_dollars[0] = 0`, and for
`1 ≤ i ≤ n` (the table's last row being `n`):
`prepay_dollars[i] = (pool_balance[i-1] - pool_principal[i]) * smm[i]`,
`total_principal[i] = pool_principal[i] + prepay_dollars[i]`, and
`total_cashflow[i] = pool_interest[i] + total_principal[i]`,
missing boundary cells being treated as zero (`fillna(0)`). -/
theorem c1_pool_cashflow_columns (balance payment interest smm : ℕ → ℚ) (pf : ℚ)
    (n i : ℕ) (h1 : 1 ≤ i) (h2 : i ≤ n) :
    prepay_dollars_f balance payment interest smm pf n 0 = 0 ∧
    prepay_dollars_f balance payment interest smm pf n i =
      (pool_balance_f balance pf smm (i - 1)
        - pool_principal_f payment interest pf smm i) * smm_f smm i ∧
    total_principal_f balance payment interest smm pf n i =
      pool_principal_f payment interest pf smm i
        + prepay_dollars_f balance payment interest smm pf n i ∧
    total_cashflow_f balance payment interest smm pf n i =
      pool_interest_f interest pf smm i
        + total_principal_f balance payment interest smm pf n i := by
  obtain ⟨j, rfl⟩ : ∃ j, i = j + 1 := ⟨i - 1, by omega⟩
  have hjn : j ≠ n := by omega
  refine ⟨rfl, ?_, ?_, ?_⟩ <;>
    simp [prepay_dollars_f, prepay_dollars, prepay_inner, total_principal_f,
      total_principal, total_cashflow_f, total_cashflow, pool_balance_f, pool_balance,
      pool_principal_f, pool_principal, pool_pmt, pool_interest_f, pool_interest,
      smm_f, smm_col, shift1, shiftm1, hjn, fillna0, nmul, nsub, nadd,
      pool_factor_eq_some]

/-- C1 witness: the schedule with all columns constantly 1, SMM constantly 1,
pool factor 1, table rows 0..2, at period `i = 1`. -/
theorem c1_pool_cashflow_columns_witness :
    prepay_dollars_f (fun _ => 1) (fun _ => 1) (fun _ => 1) (fun _ => 1) 1 2 0 = 0 ∧
    prepay_dollars_f (fun _ => 1) (fun _ => 1) (fun _ => 1) (fun _ => 1) 1 2 1 =
      (pool_balance_f (fun _ => 1) 1 (fun _ => 1) (1 - 1)
        - pool_principal_f (fun _ => 1) (fun _ => 1) 1 (fun _ => 1) 1)
        * smm_f (fun _ => 1) 1 ∧
    total_principal_f (fun _ => 1) (fun _ => 1) (fun _ => 1) (fun _ => 1) 1 2 1 =
      pool_principal_f (fun _ => 1) (fun _ => 1) 1 (fun _ => 1) 1
        + prepay_dollars_f (fun _ => 1) (fun _ => 1) (fun _ => 1) (fun _ => 1) 1 2 1 ∧
    total_cashflow_f (fun _ => 1) (fun _ => 1) (fun _ => 1) (fun _ => 1) 1 2 1 =
      pool_interest_f (fun _ => 1) 1 (fun _ => 1) 1
        + total_principal_f (fun _ => 1) (fun _ => 1) (fun _ => 1) (fun _ => 1) 1 2 1 :=
  c1_pool_cashflow_columns (fun _ => 1) (fun _ => 1) (fun _ => 1) (fun _ => 1) 1 2 1
    (by decide) (by decide)

/-- C3 (code bug).  With initial pool factor 1/2 and SMM identically 0 the
code's `pool_factor` column is 1/2, 1/2, 1/4, ...: because line 125 shifts the
*constant* initial-factor column before `cumprod`, each period multiplies by
`pf * (1 - smm)` instead of `(1 - smm)`, so with zero prepayment the factor
still decays geometrically — contradicting the claimed recurrence
`pool_factor[i] = pool_factor[i-1] * (1 - smm[i])` (which at `i = 2` would give
1/2, not 1/4). -/
theorem c3_pool_factor_compounds_bug :
    pool_factor_f (1/2) (fun _ => 0) 0 = 1/2 ∧
    pool_factor_f (1/2) (fun _ => 0) 1 = 1/2 ∧
    pool_factor_f (1/2) (fun _ => 0) 2 = 1/4 ∧
    pool_factor_f (1/2) (fun _ => 0) 2 ≠
      pool_factor_f (1/2) (fun _ => 0) 1 * (1 - 0) := by
  norm_num [pool_factor_f, pool_factor, cumprodSkipna, runProd, pool_factor_shift1,
    nmul, nsub, shift1, smm_col, fillna0]

/-! ## `calc_pmt` and the amortization recurrence
(src/mortgages/mortgages.py lines 8-34 and 150-189) -/

/-- Python `base ** (-(m : ℕ))` on floats: `base ** -m` raises
`ZeroDivisionError` when `base == 0` and `m > 0` ("0.0 cannot be raised to a
negative power"); otherwise it is `1 / base ** m` (`x ** 0 == 1`). -/
def powNeg (base : ℚ) (m : ℕ) : Except PyErr ℚ :=
  if m = 0 then .ok 1
  else if base = 0 then .error .zeroDivisionError
  else .ok ((base ^ m)⁻¹)

/-- Translation of `calc_pmt(loan_amount, r_monthly, months, fv)` (lines 31-32):
`pv = loan_amount + fv/(1 + r_monthly)**months` then
`pmt = r_monthly*pv/(1 - (1 + r_monthly)**-months)`, with Python float
division/power raising `ZeroDivisionError` on zero denominators. -/
def calc_pmt (loan_amount r_monthly : ℚ) (months : ℕ) (fv : ℚ) : Except PyErr ℚ := do
  let disc ← divE fv ((1 + r_monthly) ^ months)
  let pv := loan_amount + disc
  let ipow ← powNeg (1 + r_monthly) months
  divE (r_monthly * pv) (1 - ipow)

/-- The balance column of `create_amortization_schedule`: `update_loan`
(lines 162-170) computes `interest = balance * r_monthly`,
`principal = pmt - interest`, `balance' = balance - principal`, starting from
`vec_balance = [loan_amount]`; `balanceAt loan r pmt i` is `vec_balance[i]`. -/
def balanceAt (loan_amount r_monthly pmt : ℚ) : ℕ → ℚ
  | 0 => loan_amount
  | i + 1 =>
      balanceAt loan_amount r_monthly pmt i
        - (pmt - balanceAt loan_amount r_monthly pmt i * r_monthly)

/-- C6 (code bug).  `calc_pmt` *adds* the discounted balloon to `pv`
(line 31: `pv = loan_amount + fv/(1+r)**months`), so the schedule built with
the constructed payment ends at balance `-fv`, not the balloon value `fv`
promised by the claim and by `calc_pmt`'s own docstring ("fv: Outstanding loan
balance in the final period").  Concretely: loan 100, monthly rate 1/10, one
month, balloon 50 gives payment 160 and terminal balance -50.  The `fv = 0`
sub-claim (full amortization) does hold: loan 100, rate 1/10, one month,
balloon 0 gives payment 110 and terminal balance 0. -/
theorem c6_balloon_terminal_balance_bug :
    calc_pmt 100 (1/10) 1 50 = .ok 160 ∧
    balanceAt 100 (1/10) 160 1 = -50 ∧
    balanceAt 100 (1/10) 160 1 ≠ 50 ∧
    calc_pmt 100 (1/10) 1 0 = .ok 110 ∧
    balanceAt 100 (1/10) 110 1 = 0 := by
  norm_num [calc_pmt, divE, powNeg, Bind.bind, Except.bind, balanceAt]

/-- C7 counterexample.  `calc_pmt` has no zero-rate branch: at
`period_rate = 0` it hits the zero denominator `1 - (1+0)**-n` and fails with
`ZeroDivisionError` instead of returning `(loan_amount - balloon)/n_periods`
(which would be 10 here). -/
theorem c7_zero_rate_counterexample :
    calc_pmt 120 0 12 0 = .error .zeroDivisionError ∧
    calc_pmt 120 0 12 0 ≠ .ok ((120 - 0) / 12) := by
  have h1 : calc_pmt 120 0 12 0 = .error .zeroDivisionError := by
    norm_num [calc_pmt, divE, powNeg, Bind.bind, Except.bind]
  refine ⟨h1, ?_⟩
  rw [h1]
  intro h
  exact Except.noConfusion h

/-- C7 amended.  `calc_pmt` special-cases nothing: for `n_periods ≥ 1` and
`1 + period_rate ≠ 0` it fails (with `ZeroDivisionError`, not a separate
DomainError and not a zero-rate return) exactly when
`(1+period_rate)**-n_periods == 1`; in particular it fails at
`period_rate = 0`, and otherwise returns the annuity formula. -/
theorem c7_amended_no_zero_rate_special_case (loan r : ℚ) (months : ℕ) (fv : ℚ)
    (hm : 1 ≤ months) (hb : 1 + r ≠ 0) :
    (calc_pmt loan r months fv = .error .zeroDivisionError ↔
      ((1 + r) ^ months)⁻¹ = 1) ∧
    (r = 0 → calc_pmt loan r months fv = .error .zeroDivisionError) ∧
    (((1 + r) ^ months)⁻¹ ≠ 1 →
      calc_pmt loan r months fv =
        .ok (r * (loan + fv / (1 + r) ^ months) / (1 - ((1 + r) ^ months)⁻¹))) := by
  have hm0 : months ≠ 0 := by omega
  have hpow : (1 + r) ^ months ≠ 0 := pow_ne_zero _ hb
  have hred : calc_pmt loan r months fv =
      if 1 - ((1 + r) ^ months)⁻¹ = 0 then (.error .zeroDivisionError : Except PyErr ℚ)
      else .ok (r * (loan + fv / (1 + r) ^ months) / (1 - ((1 + r) ^ months)⁻¹)) := by
    simp [calc_pmt, divE, powNeg, hpow, hm0, hb, Bind.bind, Except.bind]
  rw [hred]
  refine ⟨?_, ?_, ?_⟩
  · by_cases hinv : ((1 + r) ^ months)⁻¹ = 1
    · simp [hinv]
    · have hne : 1 - ((1 + r) ^ months)⁻¹ ≠ 0 := fun h => hinv (sub_eq_zero.mp h).symm
      simp [hne, hinv]
  · intro hr
    subst hr
    norm_num
  · intro hinv
    have hne : 1 - ((1 + r) ^ months)⁻¹ ≠ 0 := fun h => hinv (sub_eq_zero.mp h).symm
    simp [hne]

/-- C7 amended witness: loan 120, rate 0, 12 months, balloon 0. -/
theorem c7_amended_witness :
    (calc_pmt 120 0 12 0 = .error .zeroDivisionError ↔ (((1:ℚ) + 0) ^ 12)⁻¹ = 1) ∧
    ((0:ℚ) = 0 → calc_pmt 120 0 12 0 = .error .zeroDivisionError) ∧
    ((((1:ℚ) + 0) ^ 12)⁻¹ ≠ 1 →
      calc_pmt 120 0 12 0 =
        .ok (0 * (120 + 0 / (1 + 0) ^ 12) / (1 - (((1:ℚ) + 0) ^ 12)⁻¹))) :=
  c7_amended_no_zero_rate_special_case 120 0 12 0 (by decide) (by norm_num)

/-! ## `calc_market_value` (src/mortgages/mortgages.py lines 37-84) -/

/-- Model of `np.cumprod` on a plain array (no missing values), with running
accumulator: `cumprodAux acc [x1, x2, ...] = [acc*x1, acc*x1*x2, ...]`. -/
def cumprodAux (acc : ℚ) : List ℚ → List ℚ
  | [] => []
  | x :: xs => (acc * x) :: cumprodAux (acc * x) xs

/-- Model of `np.cumprod` on an array. -/
def npCumprod (l : List ℚ) : List ℚ :=
  cumprodAux 1 l

/-- Model of `sum(xs * ys)`: elementwise product, then sum. -/
def dotSum (xs ys : List ℚ) : ℚ :=
  (List.zipWith (fun a b => a * b) xs ys).sum

/-- Translation of `calc_market_value(cashflow, market_rates, month_n, month_i)`:
length check (lines 69-70, `ValueError` on mismatch), then
`remaining_payments = cashflow[month_i:]`,
`remaining_rates = 1 + market_rates[month_i:]/12`,
`discount_rates = np.cumprod(1/remaining_rates)`,
`sum(remaining_payments*discount_rates)` (lines 73-82).
`month_n` is accepted but, as in the source, enters no computation. -/
def calc_market_value (cashflow market_rates : List ℚ) (month_n month_i : ℕ) :
    Except PyErr ℚ :=
  if cashflow.length ≠ market_rates.length then .error .valueError
  else
    .ok (dotSum (cashflow.drop month_i)
      (npCumprod (((market_rates.drop month_i).map (fun r => 1 + r / 12)).map
        (fun x => 1 / x))))

theorem dotSum_cons (a b : ℚ) (as bs : List ℚ) :
    dotSum (a :: as) (b :: bs) = a * b + dotSum as bs := rfl

/-- Reading with `getD` after `drop` reads the original list at the shifted index. -/
theorem getD_drop (l : List ℚ) : ∀ (i k : ℕ) (d : ℚ),
    (l.drop i).getD k d = l.getD (i + k) d := by
  induction l with
  | nil => intro i k d; simp
  | cons a as ih =>
      intro i k d
      cases i with
      | zero => simp
      | succ i' =>
          rw [show (a :: as).drop (i' + 1) = as.drop i' from rfl, ih i' k d]
          rw [show i' + 1 + k = (i' + k) + 1 by omega, List.getD_cons_succ]

/-- In-range `getD` after `map` applies the function, for any defaults. -/
theorem getD_map_lt (f : ℚ → ℚ) (l : List ℚ) : ∀ (j : ℕ), j < l.length →
    ∀ (d e : ℚ), (l.map f).getD j d = f (l.getD j e) := by
  induction l with
  | nil => intro j hj; simp at hj
  | cons a as ih =>
      intro j hj d e
      cases j with
      | zero => rfl
      | succ j' =>
          rw [show (a :: as).map f = f a :: as.map f from rfl, List.getD_cons_succ,
            List.getD_cons_succ]
          exact ih j' (by simpa using hj) d e

/-- The dot product of `xs` against the running products of `ys` is the sum
over positions `k` of `xs[k]` times `acc` times the product of `ys[0..k]`. -/
theorem dotSum_cumprodAux (xs : List ℚ) :
    ∀ (acc : ℚ) (ys : List ℚ), xs.length = ys.length →
      dotSum xs (cumprodAux acc ys) =
        ∑ k in Finset.range xs.length,
          xs.getD k 0 * (acc * ∏ j in Finset.range (k + 1), ys.getD j 1) := by
  induction xs with
  | nil => intro acc ys h; simp [dotSum]
  | cons x xs' ih =>
      intro acc ys h
      cases ys with
      | nil => simp at h
      | cons y ys' =>
          have h' : xs'.length = ys'.length := by simpa using h
          rw [show cumprodAux acc (y :: ys') = (acc * y) :: cumprodAux (acc * y) ys'
              from rfl,
            dotSum_cons, ih (acc * y) ys' h', List.length_cons,
            Finset.sum_range_succ', add_comm]
          congr 1
          · apply Finset.sum_congr rfl
            intro k _
            have hsh : ∀ j ∈ Finset.range (k + 1),
                (y :: ys').getD (j + 1) 1 = ys'.getD j 1 := by
              intro j _
              rw [List.getD_cons_succ]
            have hr : ∏ j in Finset.range (k + 1 + 1), (y :: ys').getD j 1 =
                y * ∏ j in Finset.range (k + 1), ys'.getD j 1 := by
              rw [Finset.prod_range_succ', List.getD_cons_zero,
                Finset.prod_congr rfl hsh]
              ring
            rw [List.getD_cons_succ, hr]
            ring
          · rw [List.getD_cons_zero, Finset.prod_range_one, List.getD_cons_zero]

/-- C10.  For cashflow and market-rate vectors of length `n+1` and
`1 ≤ start ≤ n`, `calc_market_value` returns the sum over `k = start..n` of
`cashflow[k]` times the running product over `j = start..k` of
`1/(1 + market_rates[j]/12)` — the cash flow at `start` itself is discounted
by exactly one monthly period; and a zero cash-flow vector yields 0. -/
theorem c10_present_value (cf mr : List ℚ) (n i : ℕ)
    (hcf : cf.length = n + 1) (hmr : mr.length = n + 1) (h1 : 1 ≤ i) (h2 : i ≤ n) :
    calc_market_value cf mr n i =
      .ok (∑ k in Finset.Icc i n, cf.getD k 0 *
        ∏ j in Finset.Icc i k, 1 / (1 + mr.getD j 0 / 12)) ∧
    ((∀ x ∈ cf, x = 0) → calc_market_value cf mr n i = .ok 0) := by
  have hlen : ¬ cf.length ≠ mr.length := by omega
  have hdroplen : (cf.drop i).length = n + 1 - i := by simp [hcf]
  have hmlen : (mr.drop i).length = n + 1 - i := by simp [hmr]
  have hmain : calc_market_value cf mr n i =
      .ok (∑ k in Finset.Icc i n, cf.getD k 0 *
        ∏ j in Finset.Icc i k, 1 / (1 + mr.getD j 0 / 12)) := by
    unfold calc_market_value
    rw [if_neg hlen]
    congr 1
    rw [npCumprod, List.map_map, dotSum_cumprodAux _ _ _ (by simp [hcf, hmr]),
      hdroplen, ← Nat.Ico_succ_right, Finset.sum_Ico_eq_sum_range]
    apply Finset.sum_congr rfl
    intro k hk
    rw [Finset.mem_range] at hk
    rw [getD_drop]
    congr 1
    rw [one_mul, ← Nat.Ico_succ_right, Finset.prod_Ico_eq_prod_range,
      show i + k + 1 - i = k + 1 by omega]
    apply Finset.prod_congr rfl
    intro j hj
    rw [Finset.mem_range] at hj
    rw [getD_map_lt _ _ j (by omega) 1 0, getD_drop]
    simp [Function.comp]
  refine ⟨hmain, fun hzero => ?_⟩
  rw [hmain]
  congr 1
  apply Finset.sum_eq_zero
  intro k hk
  rw [Finset.mem_Icc] at hk
  have hklt : k < cf.length := by omega
  have h0 : cf.getD k 0 = 0 := by
    rw [List.getD_eq_getElem cf 0 hklt]
    exact hzero _ (List.getElem_mem hklt)
  rw [h0, zero_mul]

/-- C10 witness: cashflow `[0, 24]`, market rates `[0, 0]`, `n = 1`,
start period 1. -/
theorem c10_present_value_witness :
    calc_market_value [0, 24] [0, 0] 1 1 =
      .ok (∑ k in Finset.Icc 1 1, [(0:ℚ), 24].getD k 0 *
        ∏ j in Finset.Icc 1 k, 1 / (1 + [(0:ℚ), 0].getD j 0 / 12)) ∧
    ((∀ x ∈ [(0:ℚ), 24], x = 0) → calc_market_value [0, 24] [0, 0] 1 1 = .ok 0) :=
  c10_present_value [0, 24] [0, 0] 1 1 (by decide) (by decide) (by decide) (by decide)

/-! ## `calc_smm` (src/mortgages/mbs.py lines 6-33) -/

/-- One entry of `calc_smm`, parameterized by the transcendental functions the
source applies: `atan` abstracts `np.arctan` and `root12` abstracts
`x ↦ x ** (1.0/12.0)` (neither is exactly representable on ℚ; the claims
below hold for every choice of these parameters).  At `market_rate = 0`,
NumPy array division yields ±inf and the pipeline still produces a finite smm
value without raising; the ℚ model's junk quotient `coupon_rate / 0 = 0`
likewise raises nothing — no claim below depends on the value at a zero rate,
only on the absence of an error. -/
def calc_smm_entry (atan root12 : ℚ → ℚ) (coupon_rate market_rate : ℚ) : ℚ :=
  let diff_rate := coupon_rate / market_rate
  let s := 0.2406 - 0.1389 * atan (5.952 * (1.089 - diff_rate))
  1 - root12 (1 - s)

/-- Translation of `calc_smm(coupon_rate, market_rates)` (lines 26-33): elementwise over the
market-rate array.  Total: the source has no raise site and NumPy elementwise
arithmetic does not raise. -/
def calc_smm (atan root12 : ℚ → ℚ) (coupon_rate : ℚ) (market_rates : List ℚ) :
    List ℚ :=
  market_rates.map (calc_smm_entry atan root12 coupon_rate)

/-- C9 counterexample.  At coupon rate 4/100 and the market-rate vector `[0]`
(a zero entry), `calc_smm` does not fail with a DomainError — it completes and
returns one SMM entry (shown here with `atan` and `root12` instantiated to
the identity): the source's elementwise NumPy pipeline has no error path. -/
theorem c9_zero_rate_counterexample :
    (calc_smm (fun q => q) (fun q => q) (4/100) [0]).length = 1 ∧
    calc_smm (fun q => q) (fun q => q) (4/100) [0] =
      [1 - (1 - ((0.2406 : ℚ) - 0.1389 * ((5.952 : ℚ) * (1.089 - 4/100/0))))] := by
  constructor
  · rfl
  · norm_num [calc_smm, calc_smm_entry]

/-- C9 amended.  `calc_smm` never raises.  For every coupon rate and
market-rate vector it returns one entry per input rate, and on vectors with
all entries nonzero each entry is
`1 - root12 (1 - (0.2406 - 0.1389 * atan (5.952*(1.089 - coupon/market))))`,
`root12` standing for `x ↦ x^(1/12)`; a zero market rate flows through NumPy
division (inf, with a runtime warning) to a value, not a DomainError. -/
theorem c9_amended_total (atan root12 : ℚ → ℚ) (coupon_rate : ℚ)
    (market_rates : List ℚ) (hnz : ∀ r ∈ market_rates, r ≠ 0) :
    calc_smm atan root12 coupon_rate market_rates =
      market_rates.map (fun r =>
        1 - root12 (1 - (0.2406 - 0.1389 * atan (5.952 * (1.089 - coupon_rate / r))))) ∧
    (calc_smm atan root12 coupon_rate market_rates).length = market_rates.length :=
  ⟨rfl, by simp [calc_smm]⟩

/-- C9 amended witness: coupon 4/100, market rates `[1/20]`. -/
theorem c9_amended_total_witness :
    calc_smm (fun q => q) (fun q => q) (4/100) [1/20] =
      [(1/20 : ℚ)].map (fun r =>
        1 - (1 - ((0.2406 : ℚ) - 0.1389 * ((5.952 : ℚ) * (1.089 - (4/100) / r))))) ∧
    (calc_smm (fun q => q) (fun q => q) (4/100) [1/20]).length =
      [(1/20 : ℚ)].length :=
  c9_amended_total (fun q => q) (fun q => q) (4/100) [1/20] (by norm_num)

/-! ## `Mbs.__init__` and the mortgage attribute surface
(src/mortgages/mbs.py lines 79-116, src/mortgages/mortgages.py lines 135-148,
247-249, 276-283) -/

/-- Attribute names bound on `self` by `Mortgage.__init__`
(mortgages.py lines 135-148).  `Fixed.__init__` calls `Mortgage.__init__` and
only re-binds `legend`, so a `Fixed` instance has the same attribute set. -/
def mortgageAttrNames : List String :=
  ["loan_amount", "r_monthly", "months", "fv", "pts", "vec_pmt", "vec_int",
   "vec_principal", "vec_balance", "pmt", "amort", "upfront", "legend"]

/-- Attribute names on an `Adjustable` instance: `Adjustable.__init__`
(mortgages.py lines 276-283) additionally binds `months_teaser` and `next_r`
before delegating to `Mortgage.__init__`. -/
def adjustableAttrNames : List String :=
  mortgageAttrNames ++ ["months_teaser", "next_r"]

/-- Python attribute lookup on an object with the given attribute names:
`AttributeError` when absent. -/
def readAttr (attrs : List String) (name : String) : Except PyErr Unit :=
  if name ∈ attrs then .ok () else .error .attributeError

/-- The attribute reads `Mbs.__init__` (mbs.py lines 79-84) performs on its
mortgage argument, in execution order: `check_smm` reads `mortgage.months`
(lines 97, 101), then `pool_mortgage`'s first statement reads
`mortgage.amortization` (line 116) — before any pool column is computed. -/
def mbsInitMortgageReads (attrs : List String) : Except PyErr Unit := do
  let _ ← readAttr attrs ("months")
  readAttr attrs ("amortization")

/-- C4.  A mortgage built by this package's `Mortgage`/`Fixed`/`Adjustable`
classes stores its schedule under `amort`, but `Mbs.pool_mortgage` reads
`mortgage.amortization`; so constructing an `Mbs` over any such instance
fails with `AttributeError` before any pool table is produced. -/
theorem c4_mbs_reads_missing_attribute :
    mbsInitMortgageReads mortgageAttrNames = .error .attributeError ∧
    mbsInitMortgageReads adjustableAttrNames = .error .attributeError ∧
    "amort" ∈ mortgageAttrNames ∧
    "amort" ∈ adjustableAttrNames ∧
    "amortization" ∉ mortgageAttrNames ∧
    "amortization" ∉ adjustableAttrNames := by
  refine ⟨rfl, rfl, ?_, ?_, ?_, ?_⟩ <;> decide

/-! ## `brent` (src/mortgages/rootfinding.py lines 7-139)

The loop is modelled as a step function on the mutable state
`(a, b, c, d, fa, fb, fc, mflag, loop_counter)` plus a fuel-indexed
iterator; `brent` supplies more fuel than the `while` guard can consume,
so the fuel-exhaustion branch is unreachable and the model's behaviour is
exactly the Python loop's.  Falling out of the `while` loop (which happens
when `loop_counter` exceeds `max_iteration` without the body returning,
e.g. for `max_iteration = 0`) is Python's implicit `return None`,
modelled as `.ok none`. -/

/-- Translation of `OptimalRoots` (rootfinding.py lines 7-25): root value, function value,
iteration count. -/
structure OptimalRoots where
  root_value : ℚ
  func_value : ℚ
  iteration : ℕ
deriving DecidableEq

/-- The loop state of `brent` at the top of the `while` body. -/
structure BrentState where
  a : ℚ
  b : ℚ
  c : ℚ
  d : ℚ
  fa : ℚ
  fb : ℚ
  fc : ℚ
  mflag : Bool
  counter : ℕ
deriving DecidableEq

/-- Outcome of one execution of the `while` body: `ret` for a `return`
statement, `cont` to loop again with the updated state. -/
inductive BrentOutcome where
  | ret (r : OptimalRoots)
  | cont (st : BrentState)
deriving DecidableEq

/-- The candidate point `s` (rootfinding.py lines 82-91): inverse quadratic
interpolation when `fa != fc and fb != fc`, else the secant step; each float
division can raise `ZeroDivisionError`. -/
def brentCandidate (st : BrentState) : Except PyErr ℚ :=
  if st.fa ≠ st.fc ∧ st.fb ≠ st.fc then do
    let term_one ← divE (st.a * st.fb * st.fc) ((st.fa - st.fb) * (st.fa - st.fc))
    let term_two ← divE (st.b * st.fa * st.fc) ((st.fb - st.fa) * (st.fb - st.fc))
    let term_three ← divE (st.c * st.fa * st.fb) ((st.fc - st.fa) * (st.fc - st.fb))
    pure (term_one + term_two + term_three)
  else do
    let q ← divE (st.fb * (st.b - st.a)) (st.fb - st.fa)
    pure (st.b - q)

/-- The two `return` statements ending the `while` body (rootfinding.py
lines 133-139): return on convergence of `|fb|`, `|fs]` or `|b-a|` below
tolerance, return on `loop_counter == max_iteration`, else loop again. -/
def brentReturnCheck (tolerance : ℚ) (max_iteration cnt : ℕ)
    (s fs a2 b2 fb2 : ℚ) (st' : BrentState) : BrentOutcome :=
  if |fb2| ≤ tolerance ∨ |fs| ≤ tolerance ∨ |b2 - a2| ≤ tolerance then
    .ret ⟨s, fs, cnt⟩
  else if cnt = max_iteration then
    .ret ⟨s, fs, cnt⟩
  else
    .cont st'

/-- The rest of the `while` body after the candidate `s0` is computed
(rootfinding.py lines 93-139): the five rejection conditions (line 94 sorts
`[(3a+b)/4, b]`, so `between_numbers[0]`/`[1]` are the min/max), the
bisection fallback and `mflag` update, evaluation of `f(s)`, the
`(d, c, fc)` shift, the sign-based bracket update, the best-estimate swap,
and the two `return` checks. -/
def brentStepAfter (f : ℚ → ℚ) (tolerance : ℚ) (max_iteration : ℕ)
    (st : BrentState) (s0 : ℚ) : BrentOutcome :=
  let cnt := st.counter + 1
  let lo := min ((3 * st.a + st.b) / 4) st.b
  let hi := max ((3 * st.a + st.b) / 4) st.b
  let condition_one := s0 < lo ∧ s0 > hi
  let condition_two := st.mflag = true ∧ |s0 - st.b| ≥ |st.b - st.c| * (1/2)
  let condition_three := st.mflag = false ∧ |s0 - st.b| ≥ |st.c - st.d| * (1/2)
  let condition_four := st.mflag = true ∧ |st.b - st.c| < |tolerance|
  let condition_five := st.mflag = false ∧ |st.c - st.d| < |tolerance|
  let reject := condition_one ∨ condition_two ∨ condition_three ∨
    condition_four ∨ condition_five
  let s := if reject then (1/2) * (st.a + st.b) else s0
  let mflag' : Bool := if reject then true else false
  let fs := f s
  let d' := st.c
  let c' := st.b
  let fc' := st.fb
  let a1 := if st.fa * fs < 0 then st.a else s
  let b1 := if st.fa * fs < 0 then s else st.b
  let fa1 := if st.fa * fs < 0 then st.fa else fs
  let fb1 := if st.fa * fs < 0 then fs else st.fb
  let a2 := if |fa1| < |fb1| then b1 else a1
  let b2 := if |fa1| < |fb1| then a1 else b1
  let fa2 := if |fa1| < |fb1| then fb1 else fa1
  let fb2 := if |fa1| < |fb1| then fa1 else fb1
  brentReturnCheck tolerance max_iteration cnt s fs a2 b2 fb2
    ⟨a2, b2, c', d', fa2, fb2, fc', mflag', cnt⟩

/-- One full execution of the `while` body. -/
def brentBody (f : ℚ → ℚ) (tolerance : ℚ) (max_iteration : ℕ)
    (st : BrentState) : Except PyErr BrentOutcome :=
  (brentCandidate st).map (brentStepAfter f tolerance max_iteration st)

/-- The `while loop_counter <= max_iteration` loop, with fuel.  Falling out
of the loop returns `none` (Python `None`); `brent` always supplies enough
fuel that the fuel-0-with-guard-true case is unreachable. -/
def brentLoop (f : ℚ → ℚ) (tolerance : ℚ) (max_iteration : ℕ) :
    ℕ → BrentState → Except PyErr (Option OptimalRoots)
  | 0, _ => .ok none
  | fuel + 1, st =>
      if st.counter ≤ max_iteration then
        match brentBody f tolerance max_iteration st with
        | .error e => .error e
        | .ok (.ret r) => .ok (some r)
        | .ok (.cont st') => brentLoop f tolerance max_iteration fuel st'
      else
        .ok none

/-- Translation of `brent(f, a, b, max_iteration, tolerance)` (lines 59-76 + loop): evaluate
the endpoints, swap so `b` carries the smaller |f|-value, set `c = a`,
`fc = fa`, `d = 0`, `mflag = 1`, `loop_counter = 0`, then iterate.  There is
no bracket-sign validation anywhere. -/
def brent (f : ℚ → ℚ) (a b : ℚ) (max_iteration : ℕ) (tolerance : ℚ) :
    Except PyErr (Option OptimalRoots) :=
  let fa := f a
  let fb := f b
  let a' := if |fa| < |fb| then b else a
  let b' := if |fa| < |fb| then a else b
  let fa' := if |fa| < |fb| then fb else fa
  let fb' := if |fa| < |fb| then fa else fb
  brentLoop f tolerance max_iteration (max_iteration + 2)
    ⟨a', b', a', 0, fa', fb', fa', true, 0⟩

/-- C2 (code bug).  `condition_one` (rootfinding.py lines 94-96) sorts
`[(3a+b)/4, b]` and then demands `s < between_numbers[0] and
s > between_numbers[1]` — i.e. `s` below the minimum AND above the maximum —
which is unsatisfiable, so the interval-containment rejection never fires.
Concretely, for `f(x) = 9x - 10` on `[0, 1]` (the state below is exactly
`brent`'s initial loop state for these inputs) the secant candidate
`s = 10/9` lies outside the strict between-interval of `(3a+b)/4 = 1/4` and
`b = 1`, none of conditions two-five holds, and the candidate is accepted —
the body returns root `10/9`, not the bisection midpoint `1/2`, and the full
`brent` call returns it as the result. -/
theorem c2_containment_check_dead :
    brentCandidate ⟨0, 1, 0, 0, -10, -1, -10, true, 0⟩ = .ok (10/9) ∧
    ¬ (min ((3 * (0:ℚ) + 1) / 4) 1 < 10/9 ∧ (10/9 : ℚ) < max ((3 * (0:ℚ) + 1) / 4) 1) ∧
    brentStepAfter (fun x => 9*x - 10) (1/100000000) 100
      ⟨0, 1, 0, 0, -10, -1, -10, true, 0⟩ (10/9) = .ret ⟨10/9, 0, 1⟩ ∧
    (10/9 : ℚ) ≠ (1/2) * (0 + 1) ∧
    brent (fun x => 9*x - 10) 0 1 100 (1/100000000) = .ok (some ⟨10/9, 0, 1⟩) := by
  norm_num [brent, brentLoop, brentBody, brentCandidate, brentStepAfter,
    brentReturnCheck, divE, Except.map, Bind.bind, Except.bind, pure, Except.pure,
    abs, min_def, max_def]

/-- C5 counterexample.  `f(x) = 9x - 10` has `f(0)*f(1) = 10 > 0` (an invalid
bracket), yet `brent` raises nothing: it runs its loop and returns a normal
result (here the point `10/9`, outside the bracket, where `f` happens to
vanish). -/
theorem c5_same_sign_bracket_counterexample :
    (fun x => (9:ℚ)*x - 10) 0 * (fun x => (9:ℚ)*x - 10) 1 > 0 ∧
    brent (fun x => 9*x - 10) 0 1 50 (1/100000000) = .ok (some ⟨10/9, 0, 1⟩) := by
  norm_num [brent, brentLoop, brentBody, brentCandidate, brentStepAfter,
    brentReturnCheck, divE, Except.map, Bind.bind, Except.bind, pure, Except.pure,
    abs, min_def, max_def]

theorem divE_ne_domainError (x y : ℚ) : divE x y ≠ .error .domainError := by
  unfold divE
  split <;> simp

theorem bind_ne_domainError (o : Except PyErr ℚ) (g : ℚ → Except PyErr ℚ)
    (ho : o ≠ .error .domainError) (hg : ∀ v, g v ≠ .error .domainError) :
    o >>= g ≠ .error .domainError := by
  cases o with
  | error e => simpa [Bind.bind, Except.bind] using ho
  | ok v => simpa [Bind.bind, Except.bind] using hg v

theorem brentCandidate_ne_domainError (st : BrentState) :
    brentCandidate st ≠ .error .domainError := by
  unfold brentCandidate
  split
  · apply bind_ne_domainError _ _ (divE_ne_domainError _ _)
    intro v1
    apply bind_ne_domainError _ _ (divE_ne_domainError _ _)
    intro v2
    apply bind_ne_domainError _ _ (divE_ne_domainError _ _)
    intro v3
    simp [pure, Except.pure]
  · apply bind_ne_domainError _ _ (divE_ne_domainError _ _)
    intro v
    simp [pure, Except.pure]

theorem brentBody_ne_domainError (f : ℚ → ℚ) (tol : ℚ) (maxIter : ℕ)
    (st : BrentState) : brentBody f tol maxIter st ≠ .error .domainError := by
  unfold brentBody
  cases hc : brentCandidate st with
  | error e =>
      have := brentCandidate_ne_domainError st
      rw [hc] at this
      simpa [Except.map] using this
  | ok v => simp [Except.map]

theorem brentLoop_ne_domainError (f : ℚ → ℚ) (tol : ℚ) (maxIter : ℕ) :
    ∀ (fuel : ℕ) (st : BrentState),
      brentLoop f tol maxIter fuel st ≠ .error .domainError := by
  intro fuel
  induction fuel with
  | zero => intro st; simp [brentLoop]
  | succ n ih =>
      intro st
      unfold brentLoop
      split
      · cases hb : brentBody f tol maxIter st with
        | error e =>
            have := brentBody_ne_domainError f tol maxIter st
            rw [hb] at this
            simpa using this
        | ok out =>
            cases out with
            | ret r => simp
            | cont st' => simpa using ih st'
      · simp

/-- C5 amended.  `brent` performs no bracket-sign validation at all: even
when `f(a)` and `f(b)` share a sign it proceeds straight into its iteration
loop and never fails with a DomainError (its only possible failure is a
`ZeroDivisionError` inside the interpolation arithmetic); on the same-sign
bracket of the counterexample it returns a normal RootResult. -/
theorem c5_amended_no_bracket_validation (f : ℚ → ℚ) (a b tolerance : ℚ)
    (max_iteration : ℕ) (hsign : 0 < f a * f b) :
    brent f a b max_iteration tolerance ≠ .error .domainError := by
  unfold brent
  exact brentLoop_ne_domainError f tolerance max_iteration _ _

/-- C5 amended witness: `f(x) = 9x - 10` on the same-sign bracket `[0, 1]`. -/
theorem c5_amended_no_bracket_validation_witness :
    brent (fun x => 9*x - 10) 0 1 7 1 ≠ .error .domainError :=
  c5_amended_no_bracket_validation (fun x => 9*x - 10) 0 1 1 7 (by norm_num)

/-- C8 counterexample.  With `max_iteration = 0` and a non-converging first
iterate (`f(x) = x² - 2` on `[0, 2]`, tolerance 1e-8), the body's final cap
check `loop_counter == max_iteration` compares `1 == 0` and does not return,
the `while 1 <= 0` guard then fails, and the Python function falls off its
end returning `None` — not a RootResult. -/
theorem c8_zero_cap_returns_none :
    brent (fun x => x*x - 2) 0 2 0 (1/100000000) = .ok none := by
  norm_num [brent, brentLoop, brentBody, brentCandidate, brentStepAfter,
    brentReturnCheck, divE, Except.map, Bind.bind, Except.bind, pure, Except.pure,
    abs, min_def, max_def]

/-- Every execution of the `while` body either returns a result carrying
iteration count `counter + 1`, or continues with `counter + 1 ≠
max_iteration` (if the incremented counter had hit the cap, the body would
have returned). -/
theorem brentReturnCheck_cases (tol : ℚ) (maxIter cnt : ℕ) (s fs a2 b2 fb2 : ℚ)
    (st' : BrentState) (hcnt : st'.counter = cnt) :
    (∃ r, brentReturnCheck tol maxIter cnt s fs a2 b2 fb2 st' = .ret r ∧
      r.iteration = cnt) ∨
    (∃ st'', brentReturnCheck tol maxIter cnt s fs a2 b2 fb2 st' = .cont st'' ∧
      st''.counter = cnt ∧ cnt ≠ maxIter) := by
  unfold brentReturnCheck
  split
  · exact Or.inl ⟨_, rfl, rfl⟩
  · split
    · exact Or.inl ⟨_, rfl, rfl⟩
    · rename_i h
      exact Or.inr ⟨st', rfl, hcnt, h⟩

theorem brentStepAfter_counter (f : ℚ → ℚ) (tol : ℚ) (maxIter : ℕ)
    (st : BrentState) (s0 : ℚ) :
    (∃ r, brentStepAfter f tol maxIter st s0 = .ret r ∧
      r.iteration = st.counter + 1) ∨
    (∃ st', brentStepAfter f tol maxIter st s0 = .cont st' ∧
      st'.counter = st.counter + 1 ∧ st.counter + 1 ≠ maxIter) := by
  unfold brentStepAfter
  exact brentReturnCheck_cases _ _ _ _ _ _ _ _ _ rfl

/-- Any `.ok` outcome of the loop, entered below the cap with enough fuel,
is a result (never the fall-through `none`) whose iteration count is at most
the cap. -/
theorem brentLoop_ok_bound (f : ℚ → ℚ) (tol : ℚ) (maxIter : ℕ) :
    ∀ (fuel : ℕ) (st : BrentState), st.counter < maxIter →
      maxIter < fuel + st.counter →
      ∀ r, brentLoop f tol maxIter fuel st = .ok r →
        ∃ o, r = some o ∧ o.iteration ≤ maxIter := by
  intro fuel
  induction fuel with
  | zero =>
      intro st h1 h2 r _
      exact absurd h2 (by omega)
  | succ n ih =>
      intro st h1 h2 r hr
      unfold brentLoop at hr
      rw [if_pos (Nat.le_of_lt h1)] at hr
      cases hb : brentBody f tol maxIter st with
      | error e =>
          rw [hb] at hr
          exact absurd hr (by simp)
      | ok out =>
          rw [hb] at hr
          obtain ⟨s0, hout⟩ : ∃ s0, out = brentStepAfter f tol maxIter st s0 := by
            cases hc : brentCandidate st with
            | error e =>
                rw [brentBody, hc] at hb
                simp [Except.map] at hb
            | ok v =>
                rw [brentBody, hc] at hb
                simp only [Except.map, Except.ok.injEq] at hb
                exact ⟨v, hb.symm⟩
          subst hout
          rcases brentStepAfter_counter f tol maxIter st s0 with
            ⟨r0, hret, hiter⟩ | ⟨st', hcont, hc1, hc2⟩
          · rw [hret] at hr
            simp only [Except.ok.injEq] at hr
            exact ⟨r0, hr.symm, by omega⟩
          · rw [hcont] at hr
            exact ih st' (by omega) (by omega) r hr

/-- C8 amended.  For every `max_iteration ≥ 1`, `brent` performs at most
`max_iteration` loop iterations and — whenever it completes without a
`ZeroDivisionError` from the interpolation arithmetic (possible for
degenerate `f`, e.g. a constant) — returns a RootResult whose iteration
count is at most `max_iteration`, raising nothing on non-convergence
(hitting the cap returns the best estimate).  With `max_iteration = 0` the
source instead falls out of its `while` loop and returns `None`. -/
theorem c8_amended_cap_bound (f : ℚ → ℚ) (a b tolerance : ℚ)
    (max_iteration : ℕ) (hmax : 1 ≤ max_iteration) (r : Option OptimalRoots)
    (hr : brent f a b max_iteration tolerance = .ok r) :
    ∃ o, r = some o ∧ o.iteration ≤ max_iteration := by
  unfold brent at hr
  refine brentLoop_ok_bound f tolerance max_iteration (max_iteration + 2) _ ?_ ?_ r hr
  · exact hmax
  · show max_iteration < max_iteration + 2 + 0
    omega

/-- C8 amended witness: `f(x) = 9x - 10` on `[0, 1]`, cap 100, tolerance
1e-8; the returned result is `(10/9, 0, 1)`, with 1 ≤ 100 iterations. -/
theorem c8_amended_cap_bound_witness :
    ∃ o, (some (⟨10/9, 0, 1⟩ : OptimalRoots) : Option OptimalRoots) = some o ∧
      o.iteration ≤ 100 :=
  c8_amended_cap_bound (fun x => 9*x - 10) 0 1 (1/100000000) 100 (by decide)
    (some ⟨10/9, 0, 1⟩)
    (by norm_num [brent, brentLoop, brentBody, brentCandidate, brentStepAfter,
      brentReturnCheck, divE, Except.map, Bind.bind, Except.bind, pure,
      Except.pure, abs, min_def, max_def])
